import Mathlib

/-!
Verification of the blog application (Django project `mysite/blog`) against its
natural-language specification.  The data model (`Post`, `Comment`), the custom
`PublishedManager`, the view-layer query pipelines (`post_list`, `post_detail`,
`post_share`, `post_comment`, `post_search`), the pagination helper
(`services.paginate_queryset`) and the URL configuration (`blog/urls.py`) are
shallowly embedded as pure Lean functions over lists of records.  The database
is modelled as a `List Post` (plus a `List Comment` for comment state); ORM
querysets become list filters and sorts; HTTP 404 becomes `Option`/failure.
-/

namespace Blog

/-- Status choices of `Post.Status` in `blog/models.py`: the two `TextChoices` values
`DRAFT = 'DF'` and `PUBLISHED = 'PB'`. -/
inductive Status
  | draft
  | published
deriving DecidableEq, Repr

/-- A point in time as stored in `Post.publication_date` (a `DateTimeField`).
`secondsOfDay` stands for the time-of-day part, which participates in ordering
but not in URL construction. -/
structure DateTime where
  year : Nat
  month : Nat
  day : Nat
  secondsOfDay : Nat
deriving DecidableEq, Repr

/-- Lexicographic less-or-equal on lists of naturals, used to compare date keys
and (shared-tag-count, date) keys.  On the equal-length keys used below it is
the usual lexicographic order. -/
def natLexLe : List Nat → List Nat → Bool
  | [], _ => true
  | _ :: _, [] => false
  | a :: as, b :: bs =>
    if a < b then true
    else if b < a then false
    else natLexLe as bs

theorem natLexLe_nil_left (bs : List Nat) : natLexLe [] bs = true := rfl

theorem natLexLe_cons_iff (a b : Nat) (as bs : List Nat) :
    natLexLe (a :: as) (b :: bs) = true ↔ a < b ∨ (a = b ∧ natLexLe as bs = true) := by
  simp only [natLexLe]
  split_ifs with h1 h2
  · simp [h1]
  · constructor
    · intro h
      exact absurd h (by simp)
    · rintro (h | ⟨h, _⟩) <;> omega
  · have hab : a = b := by omega
    simp [hab, h2]

theorem natLexLe_total : ∀ as bs : List Nat, natLexLe as bs = true ∨ natLexLe bs as = true
  | [], _ => Or.inl rfl
  | _ :: _, [] => Or.inr rfl
  | a :: as, b :: bs => by
    rcases Nat.lt_trichotomy a b with h | h | h
    · exact Or.inl ((natLexLe_cons_iff a b as bs).mpr (Or.inl h))
    · rcases natLexLe_total as bs with ih | ih
      · exact Or.inl ((natLexLe_cons_iff a b as bs).mpr (Or.inr ⟨h, ih⟩))
      · exact Or.inr ((natLexLe_cons_iff b a bs as).mpr (Or.inr ⟨h.symm, ih⟩))
    · exact Or.inr ((natLexLe_cons_iff b a bs as).mpr (Or.inl h))

theorem natLexLe_trans : ∀ as bs cs : List Nat,
    natLexLe as bs = true → natLexLe bs cs = true → natLexLe as cs = true
  | [], _, cs, _, _ => natLexLe_nil_left cs
  | _ :: _, [], _, h1, _ => by simp [natLexLe] at h1
  | _ :: _, _ :: _, [], _, h2 => by simp [natLexLe] at h2
  | a :: as, b :: bs, c :: cs, h1, h2 => by
    rw [natLexLe_cons_iff] at h1 h2 ⊢
    rcases h1 with h1 | ⟨h1e, h1r⟩
    · rcases h2 with h2 | ⟨h2e, _⟩
      · exact Or.inl (h1.trans h2)
      · exact Or.inl (h2e ▸ h1)
    · rcases h2 with h2 | ⟨h2e, h2r⟩
      · exact Or.inl (h1e ▸ h2)
      · exact Or.inr ⟨h1e.trans h2e, natLexLe_trans as bs cs h1r h2r⟩

/-- The comparison key of a publication date: lexicographic on
(year, month, day, time of day), i.e. chronological order. -/
def DateTime.sortKey (d : DateTime) : List Nat :=
  [d.year, d.month, d.day, d.secondsOfDay]

/-- The `Post` model of `blog/models.py`.  `tags` is the set of taggit tag ids
attached to the post (the many-to-many `tags` manager); `author`, `created_at`
and `updated_at` play no role in the claims and are omitted. -/
structure Post where
  id : Nat
  title : String
  slug : String
  body : String
  publication_date : DateTime
  status : Status
  tags : List Nat
deriving DecidableEq, Repr

/-- Relation: `a` comes no later than `b` in the model's default ordering
`ordering = ['-publication_date']` (most recent first). -/
def pubDateDescLe (a b : Post) : Prop :=
  natLexLe b.publication_date.sortKey a.publication_date.sortKey = true

instance : DecidableRel pubDateDescLe := fun a b => by
  unfold pubDateDescLe; infer_instance

instance : IsTotal Post pubDateDescLe :=
  ⟨fun a b => natLexLe_total b.publication_date.sortKey a.publication_date.sortKey⟩

instance : IsTrans Post pubDateDescLe :=
  ⟨fun a b c hab hbc =>
    natLexLe_trans c.publication_date.sortKey b.publication_date.sortKey
      a.publication_date.sortKey hbc hab⟩

/-- The rows of the posts table, in the model's default ordering
(`Meta.ordering = ['-publication_date']`), as any unqualified queryset
delivers them. -/
def defaultOrder (db : List Post) : List Post :=
  List.insertionSort pubDateDescLe db

/-- Embeds `PublishedManager.get_queryset` (`blog/models.py`): the default queryset
restricted to `status=Post.Status.PUBLISHED`, keeping the default descending
publication-date ordering. -/
def PublishedManager.get_queryset (db : List Post) : List Post :=
  (defaultOrder db).filter (fun p => decide (p.status = Status.published))

theorem mem_get_queryset (db : List Post) (p : Post) :
    p ∈ PublishedManager.get_queryset db ↔ p ∈ db ∧ p.status = Status.published := by
  unfold PublishedManager.get_queryset defaultOrder
  rw [List.mem_filter, List.mem_insertionSort]
  simp

theorem get_queryset_sorted (db : List Post) :
    List.Sorted pubDateDescLe (PublishedManager.get_queryset db) :=
  List.Pairwise.sublist (List.filter_sublist _)
    (List.sorted_insertionSort pubDateDescLe db)

theorem get_queryset_length (db : List Post) :
    (PublishedManager.get_queryset db).length =
      db.countP (fun p => decide (p.status = Status.published)) := by
  unfold PublishedManager.get_queryset defaultOrder
  rw [← List.countP_eq_length_filter]
  exact (List.perm_insertionSort pubDateDescLe db).countP_eq _

/-- Claim C1: for every collection of `Post` records, `PublishedManager.get_queryset`
returns exactly the posts with status Published — every draft is excluded, every
published post is included, a collection with N published and M draft posts yields
exactly N results, and the default descending-publication-date ordering is kept. -/
theorem C1_published_query_view :
    (∀ db p, p ∈ PublishedManager.get_queryset db ↔
      p ∈ db ∧ p.status = Status.published) ∧
    (∀ db : List Post, (PublishedManager.get_queryset db).length =
      db.countP (fun p => decide (p.status = Status.published))) ∧
    (∀ db : List Post, List.Sorted pubDateDescLe (PublishedManager.get_queryset db)) :=
  ⟨mem_get_queryset, get_queryset_length, get_queryset_sorted⟩

/-! ## Pagination (`services.paginate_queryset`, `views.post_list`) -/

/-- The `page` GET parameter as the view receives it: `request.GET.get('page', 1)`
yields the integer 1 when the parameter is absent and the raw string otherwise. -/
inductive PageToken
  | absent
  | str (s : String)
deriving DecidableEq, Repr

def digitsToNat (cs : List Char) : Nat :=
  cs.foldl (fun a c => a * 10 + (c.toNat - 48)) 0

/-- Model of Python `int(str)` as used by Django's `Paginator.validate_number`:
an optional minus sign followed by decimal digits parses, anything else raises
(here: `none`). -/
def pyIntOfString (s : String) : Option Int :=
  match s.data with
  | [] => none
  | '-' :: rest =>
    if !rest.isEmpty && rest.all Char.isDigit then some (-(digitsToNat rest : Int))
    else none
  | cs =>
    if cs.all Char.isDigit then some ((digitsToNat cs : Int)) else none

namespace Paginator

/-- Model of `django.core.paginator.Paginator.num_pages` with the defaults used here
(`orphans=0`, `allow_empty_first_page=True`): `max(1, ceil(count / per_page))`. -/
def num_pages (count per_page : Nat) : Nat :=
  max 1 ((count + per_page - 1) / per_page)

/-- The slice of objects on page `n` (1-based): `object_list[(n-1)*per_page : n*per_page]`. -/
def page_items (l : List α) (per_page n : Nat) : List α :=
  (l.drop ((n - 1) * per_page)).take per_page

/-- The two exceptions `Paginator.page` can raise. -/
inductive PageError
  | notAnInteger
  | emptyPage
deriving DecidableEq, Repr

/-- Model of `Paginator.validate_number`: a non-integer token raises `PageNotAnInteger`;
an integer below 1 or above `num_pages` raises `EmptyPage`.  (The
`number == 1 and allow_empty_first_page` escape can never fire because
`num_pages ≥ 1`.) -/
def validate_number (count per_page : Nat) (tok : Option Int) : Except PageError Nat :=
  match tok with
  | none => Except.error PageError.notAnInteger
  | some n =>
    if n < 1 then Except.error PageError.emptyPage
    else if (num_pages count per_page : Int) < n then Except.error PageError.emptyPage
    else Except.ok n.toNat

/-- Model of `Paginator.page`: validate the number, then slice. -/
def page (l : List α) (per_page : Nat) (tok : Option Int) : Except PageError (List α) :=
  (validate_number l.length per_page tok).map (page_items l per_page)

end Paginator

def pageTokenInt : PageToken → Option Int
  | PageToken.absent => some 1
  | PageToken.str s => pyIntOfString s

/-- Embeds `services.paginate_queryset`: try `paginator.page(page_number)`; on
`PageNotAnInteger` deliver page 1, on `EmptyPage` deliver the last page.  The
recovery calls `paginator.page(1)` / `paginator.page(num_pages)` always
validate successfully, so they are embedded directly as slices. -/
def paginate_queryset (l : List α) (per_page : Nat) (tok : PageToken) : List α :=
  match Paginator.page l per_page (pageTokenInt tok) with
  | Except.ok items => items
  | Except.error Paginator.PageError.notAnInteger => Paginator.page_items l per_page 1
  | Except.error Paginator.PageError.emptyPage =>
      Paginator.page_items l per_page (Paginator.num_pages l.length per_page)

/-- The pagination block of `views.post_list` (lines 32-45): the same
try/except logic written inline, with 5 posts per page. -/
def post_list_page (l : List α) (tok : PageToken) : List α :=
  match Paginator.page l 5 (pageTokenInt tok) with
  | Except.ok items => items
  | Except.error Paginator.PageError.notAnInteger => Paginator.page_items l 5 1
  | Except.error Paginator.PageError.emptyPage =>
      Paginator.page_items l 5 (Paginator.num_pages l.length 5)

theorem page_some_one (l : List α) (per_page : Nat) :
    Paginator.page l per_page (some 1) = Except.ok (l.take per_page) := by
  unfold Paginator.page Paginator.validate_number
  have h1 : (1 : Nat) ≤ Paginator.num_pages l.length per_page := le_max_left _ _
  have h2 : ¬ ((Paginator.num_pages l.length per_page : Int) < 1) := by
    exact_mod_cast Nat.not_lt.mpr h1
  simp [h2, Except.map, Paginator.page_items]

/-- The 12-item result set used by the spec's pagination examples. -/
def twelveItems : List Nat := [1, 2, 3, 4, 5, 6, 7, 8, 9, 10, 11, 12]

/-- Claim C3: pagination at 5 per page — a missing page token defaults to page 1;
a token that does not parse as an integer yields page 1 (e.g. "abc" on the
12-item set gives items 1-5); a token beyond the last page yields the last
valid page (e.g. "99" on the 12-item set gives items 11-12); an in-range token
yields exactly that page's slice (e.g. "2" gives items 6-10); and the inline
logic of `post_list` agrees with `paginate_queryset` on every input. -/
theorem C3_pagination_fallbacks :
    (∀ l : List Nat, paginate_queryset l 5 PageToken.absent = l.take 5) ∧
    (∀ (l : List Nat) (s : String), pyIntOfString s = none →
      paginate_queryset l 5 (PageToken.str s) = l.take 5) ∧
    paginate_queryset twelveItems 5 (PageToken.str "abc") = [1, 2, 3, 4, 5] ∧
    (∀ (l : List Nat) (s : String) (n : Int), pyIntOfString s = some n →
      (Paginator.num_pages l.length 5 : Int) < n →
      paginate_queryset l 5 (PageToken.str s) =
        Paginator.page_items l 5 (Paginator.num_pages l.length 5)) ∧
    paginate_queryset twelveItems 5 (PageToken.str "99") = [11, 12] ∧
    paginate_queryset twelveItems 5 (PageToken.str "2") = [6, 7, 8, 9, 10] ∧
    (∀ (l : List Nat) (tok : PageToken), post_list_page l tok = paginate_queryset l 5 tok) := by
  refine ⟨?_, ?_, by decide, ?_, by decide, by decide, ?_⟩
  · intro l
    unfold paginate_queryset pageTokenInt
    rw [page_some_one]
  · intro l s hs
    simp only [paginate_queryset, pageTokenInt]
    rw [hs]
    simp [Paginator.page, Paginator.validate_number, Except.map, Paginator.page_items]
  · intro l s n hs hn
    simp only [paginate_queryset, pageTokenInt]
    rw [hs]
    have h1 : ¬ (n < 1) := by
      have : (1 : Int) ≤ (Paginator.num_pages l.length 5 : Int) := by
        exact_mod_cast le_max_left 1 ((l.length + 5 - 1) / 5)
      omega
    simp [Paginator.page, Paginator.validate_number, h1, hn, Except.map]
  · intro l tok
    unfold post_list_page paginate_queryset
    rfl

/-- Witness for C3: the hypothesis-bearing conjuncts applied at concrete inputs —
the unparseable token "seven" yields page 1, and the out-of-range token "7" on
the 12-item set yields the last page. -/
theorem C3_pagination_fallbacks_witness :
    paginate_queryset twelveItems 5 (PageToken.str "seven") = twelveItems.take 5 ∧
    paginate_queryset twelveItems 5 (PageToken.str "7") =
      Paginator.page_items twelveItems 5 (Paginator.num_pages twelveItems.length 5) :=
  ⟨C3_pagination_fallbacks.2.1 twelveItems "seven" (by decide),
   C3_pagination_fallbacks.2.2.2.1 twelveItems "7" 7 (by decide) (by decide)⟩

/-! ## Similar posts (`views.post_detail`) -/

/-- The value `same_tags=Count('tags', filter=Q(tags__in=post_tags_ids), distinct=True)`
of a candidate `q`: the number of distinct tags of `q` that belong to the
current post's tag-id list. -/
def sharedTagCount (tagIds : List Nat) (q : Post) : Nat :=
  ((q.tags.filter (fun t => decide (t ∈ tagIds))).dedup).length

/-- The sort key of `order_by('-same_tags', '-publication_date')`. -/
def simKey (tagIds : List Nat) (q : Post) : List Nat :=
  sharedTagCount tagIds q :: q.publication_date.sortKey

/-- Relation: `a` comes no later than `b` under `order_by('-same_tags', '-publication_date')`:
descending shared-tag count, ties broken by descending publication date. -/
def simOrderLe (tagIds : List Nat) (a b : Post) : Prop :=
  natLexLe (simKey tagIds b) (simKey tagIds a) = true

instance (tagIds : List Nat) : DecidableRel (simOrderLe tagIds) := fun a b => by
  unfold simOrderLe; infer_instance

instance (tagIds : List Nat) : IsTotal Post (simOrderLe tagIds) :=
  ⟨fun a b => natLexLe_total (simKey tagIds b) (simKey tagIds a)⟩

instance (tagIds : List Nat) : IsTrans Post (simOrderLe tagIds) :=
  ⟨fun _ _ _ hab hbc => natLexLe_trans _ _ _ hbc hab⟩

/-- The similar-posts query of `views.post_detail` (lines 88-101):
`Post.published.filter(tags__in=post_tags_ids).exclude(id=post.id)`, counted by
distinct shared tags, ordered by `('-same_tags', '-publication_date')`, sliced
to the first 4. -/
def post_detail_similar_posts (db : List Post) (post : Post) : List Post :=
  (List.insertionSort (simOrderLe post.tags)
    ((PublishedManager.get_queryset db).filter
      (fun q => (q.tags.any fun t => decide (t ∈ post.tags)) && decide (q.id ≠ post.id)))).take 4

/-- Spec example post A, tagged x = 1 and y = 2. -/
def postA : Post :=
  { id := 1, title := "a", slug := "a", body := "", publication_date := ⟨2024, 3, 1, 0⟩,
    status := Status.published, tags := [1, 2] }

/-- Spec example post B, tagged x = 1 only, more recent than C. -/
def postB : Post :=
  { id := 2, title := "b", slug := "b", body := "", publication_date := ⟨2024, 5, 1, 0⟩,
    status := Status.published, tags := [1] }

/-- Spec example post C, tagged x = 1 and y = 2, older than B. -/
def postC : Post :=
  { id := 3, title := "c", slug := "c", body := "", publication_date := ⟨2024, 4, 1, 0⟩,
    status := Status.published, tags := [1, 2] }

/-- A draft sharing both tags with A: must never appear among similar posts. -/
def postD : Post :=
  { id := 4, title := "d", slug := "d", body := "", publication_date := ⟨2024, 6, 1, 0⟩,
    status := Status.draft, tags := [1, 2] }

def exampleDb : List Post := [postA, postB, postC, postD]

/-- Claim C2: the similar-posts query returns at most 4 posts, each Published,
sharing at least one tag with the current post and distinct from it, ordered by
shared-tag count descending with ties broken by publication date descending;
on the spec's example (A tagged x and y, B tagged x, C tagged x and y, plus a
draft D) the query for A returns C before B, excluding A itself and the draft. -/
theorem C2_similar_posts :
    (∀ db p, (post_detail_similar_posts db p).length ≤ 4) ∧
    (∀ db p q, q ∈ post_detail_similar_posts db p →
      q ∈ db ∧ q.status = Status.published ∧ q.id ≠ p.id ∧ ∃ t ∈ q.tags, t ∈ p.tags) ∧
    (∀ db p, List.Sorted (simOrderLe p.tags) (post_detail_similar_posts db p)) ∧
    post_detail_similar_posts exampleDb postA = [postC, postB] ∧
    sharedTagCount postA.tags postC = 2 ∧
    sharedTagCount postA.tags postB = 1 := by
  refine ⟨?_, ?_, ?_, by decide, by decide, by decide⟩
  · intro db p
    exact List.length_take_le 4 _
  · intro db p q hq
    have hq' := List.mem_of_mem_take hq
    rw [List.mem_insertionSort, List.mem_filter] at hq'
    obtain ⟨hmem, hcond⟩ := hq'
    rw [mem_get_queryset] at hmem
    rw [Bool.and_eq_true] at hcond
    obtain ⟨hany, hid⟩ := hcond
    rw [List.any_eq_true] at hany
    obtain ⟨t, ht, htp⟩ := hany
    exact ⟨hmem.1, hmem.2, of_decide_eq_true hid, t, ht, of_decide_eq_true htp⟩
  · intro db p
    exact List.Pairwise.sublist (List.take_sublist _ _)
      (List.sorted_insertionSort (simOrderLe p.tags) _)

/-- Witness for C2: the membership conjunct applied to post C in the example
database, with the hypothesis `C ∈ similar(A)` discharged by evaluation. -/
theorem C2_similar_posts_witness :
    postC ∈ exampleDb ∧ postC.status = Status.published ∧ postC.id ≠ postA.id ∧
      ∃ t ∈ postC.tags, t ∈ postA.tags :=
  C2_similar_posts.2.1 exampleDb postA postC (by decide)

/-- Claim C10: a published post with no tags has no similar posts — the
`tags__in` filter over an empty id collection matches no candidate, so the
query returns the empty list. -/
theorem C10_untagged_post_no_similar (db : List Post) (p : Post) (h : p.tags = []) :
    post_detail_similar_posts db p = [] := by
  have hf : (PublishedManager.get_queryset db).filter
      (fun q => (q.tags.any fun t => decide (t ∈ p.tags)) && decide (q.id ≠ p.id)) = [] := by
    rw [List.filter_eq_nil_iff]
    intro q _
    simp [h]
  unfold post_detail_similar_posts
  rw [hf]
  rfl

/-- A published post carrying no tags, for the C10 witness. -/
def postUntagged : Post :=
  { id := 9, title := "u", slug := "u", body := "", publication_date := ⟨2024, 7, 1, 0⟩,
    status := Status.published, tags := [] }

/-- Witness for C10: the untagged post has zero related posts even over a
database containing published posts that share tags with each other. -/
theorem C10_untagged_post_no_similar_witness :
    post_detail_similar_posts exampleDb postUntagged = [] :=
  C10_untagged_post_no_similar exampleDb postUntagged rfl

/-! ## Published-post lookup and the share / comment flows -/

/-- Model of `QuerySet.get(id=pid)` over a list of rows, as wrapped by
`get_object_or_404`: succeeds exactly when a single row matches; `none` models
the Http404 raised on `DoesNotExist`.  (For the primary-key lookups used here a
multiple-object match is impossible whenever row ids are unique.) -/
def queryset_get (l : List Post) (pid : Nat) : Option Post :=
  match l.filter (fun p => decide (p.id = pid)) with
  | [p] => some p
  | _ => none

/-- Embeds `PublishedManager.get_by_id_or_404` (`blog/models.py`):
`get_object_or_404(self.get_queryset(), id=post_id)`. -/
def PublishedManager.get_by_id_or_404 (db : List Post) (pid : Nat) : Option Post :=
  queryset_get (PublishedManager.get_queryset db) pid

/-- Django `CharField` cleaning strips surrounding whitespace from submitted
values. -/
def stripChars (cs : List Char) : List Char :=
  ((cs.dropWhile Char.isWhitespace).reverse.dropWhile Char.isWhitespace).reverse

def strip (s : String) : String := String.mk (stripChars s.data)

/-- Abstraction of Django's `EmailValidator`: a nonempty value containing an
at sign.  The claims only distinguish empty from well-formed addresses. -/
def validEmailAddress (s : String) : Bool :=
  !s.isEmpty && s.data.contains '@'

/-- Field data of `forms.EmailPostForm`; `recipient` embeds the form field
named `to` in the source. -/
structure EmailPostFormData where
  name : String
  email : String
  recipient : String
  comments : String
deriving DecidableEq, Repr

/-- Validation of `EmailPostForm.is_valid()`: `name` (required, max length 25), `email` and
the recipient address (required); `comments` is optional. -/
def EmailPostForm.is_valid (d : EmailPostFormData) : Bool :=
  !(strip d.name).isEmpty && decide (d.name.length ≤ 25) &&
    validEmailAddress d.email && validEmailAddress d.recipient

/-- Embeds `views.post_share`: look up the published post by id (404 when absent), and
when a valid form was POSTed report `sent = True`; the mail dispatch itself
carries no state relevant to the claims. -/
def post_share (db : List Post) (pid : Nat) (posted : Option EmailPostFormData) :
    Option (Post × Bool) :=
  match PublishedManager.get_by_id_or_404 db pid with
  | none => none
  | some post =>
    match posted with
    | some d => if EmailPostForm.is_valid d then some (post, true) else some (post, false)
    | none => some (post, false)

/-- Field data of `forms.CommentForm` (`fields = ['name', 'email', 'body']`). -/
structure CommentFormData where
  name : String
  email : String
  body : String
deriving DecidableEq, Repr

/-- Validation of `CommentForm.is_valid()`: all three model-derived fields are required —
`name` (max length 80), `email` (a well-formed address), `body`. -/
def CommentForm.is_valid (d : CommentFormData) : Bool :=
  !(strip d.name).isEmpty && decide (d.name.length ≤ 80) &&
    validEmailAddress d.email && !(strip d.body).isEmpty

/-- The `Comment` model of `blog/models.py`: attached to one post, with the
soft-moderation flag `is_visible` whose model default is `True`; timestamps are
omitted. -/
structure Comment where
  post_id : Nat
  name : String
  email : String
  body : String
  is_visible : Bool
deriving DecidableEq, Repr

/-- Embeds `views.post_comment` as a transition on the persisted comment list: 404
(`none`) when no published post has the id; a valid form appends exactly one
comment — built from the cleaned data by `form.save(commit=False)`, attached
via `comment.post = post` and persisted by `comment.save()` with the model
default `is_visible = True`; an invalid form leaves the state unchanged. -/
def post_comment (db : List Post) (comments : List Comment) (pid : Nat)
    (d : CommentFormData) : Option (List Comment) :=
  match PublishedManager.get_by_id_or_404 db pid with
  | none => none
  | some post =>
    if CommentForm.is_valid d then
      some (comments ++
        [{ post_id := post.id, name := strip d.name, email := strip d.email,
           body := strip d.body, is_visible := true }])
    else some comments

/-- Cardinality of `post.comments.filter(is_visible=True)`: the number of visible
comments attached to post `pid`. -/
def visibleCommentCount (comments : List Comment) (pid : Nat) : Nat :=
  (comments.filter (fun c => decide (c.post_id = pid) && c.is_visible)).length

theorem filter_id_length_le_one (l : List Post) (pid : Nat)
    (h : (l.map Post.id).Nodup) :
    (l.filter (fun p => decide (p.id = pid))).length ≤ 1 := by
  induction l with
  | nil => simp
  | cons p l ih =>
    rw [List.map_cons, List.nodup_cons] at h
    by_cases hp : p.id = pid
    · have hnil : l.filter (fun q => decide (q.id = pid)) = [] := by
        rw [List.filter_eq_nil_iff]
        intro q hq hq'
        exact h.1 (hp ▸ of_decide_eq_true hq' ▸ List.mem_map_of_mem Post.id hq)
      rw [List.filter_cons_of_pos (by simpa using hp), hnil]
      simp
    · rw [List.filter_cons_of_neg (by simpa using hp)]
      exact ih h.2

theorem get_by_id_or_404_spec (db : List Post) (pid : Nat)
    (h : (db.map Post.id).Nodup) :
    ((PublishedManager.get_by_id_or_404 db pid).isSome ↔
      ∃ p ∈ db, p.status = Status.published ∧ p.id = pid) ∧
    ∀ p, PublishedManager.get_by_id_or_404 db pid = some p →
      p ∈ db ∧ p.status = Status.published ∧ p.id = pid := by
  have hq : ((PublishedManager.get_queryset db).map Post.id).Nodup := by
    have hperm : List.Perm ((defaultOrder db).map Post.id) (db.map Post.id) :=
      (List.perm_insertionSort pubDateDescLe db).map Post.id
    have hsorted : ((defaultOrder db).map Post.id).Nodup := hperm.nodup_iff.mpr h
    exact List.Nodup.sublist (List.Sublist.map Post.id (List.filter_sublist _)) hsorted
  have hlen := filter_id_length_le_one (PublishedManager.get_queryset db) pid hq
  unfold PublishedManager.get_by_id_or_404 queryset_get
  constructor
  · constructor
    · intro hs
      rcases hfe : (PublishedManager.get_queryset db).filter
          (fun p => decide (p.id = pid)) with _ | ⟨p, rest⟩
      · rw [hfe] at hs
        simp at hs
      · have hp : p ∈ (PublishedManager.get_queryset db).filter
            (fun p => decide (p.id = pid)) := hfe ▸ List.mem_cons_self p rest
        rw [List.mem_filter] at hp
        have hpq := (mem_get_queryset db p).mp hp.1
        exact ⟨p, hpq.1, hpq.2, of_decide_eq_true hp.2⟩
    · rintro ⟨p, hpdb, hpub, hid⟩
      have hp : p ∈ (PublishedManager.get_queryset db).filter
          (fun p => decide (p.id = pid)) := by
        rw [List.mem_filter, mem_get_queryset]
        exact ⟨⟨hpdb, hpub⟩, decide_eq_true hid⟩
      rcases hfe : (PublishedManager.get_queryset db).filter
          (fun p => decide (p.id = pid)) with _ | ⟨q, rest⟩
      · rw [hfe] at hp
        cases hp
      · rcases rest with _ | ⟨r, rest⟩
        · rw [hfe]
          simp
        · rw [hfe] at hlen
          simp at hlen
  · intro p hp
    rcases hfe : (PublishedManager.get_queryset db).filter
        (fun p => decide (p.id = pid)) with _ | ⟨q, rest⟩
    · rw [hfe] at hp
      cases hp
    · rcases rest with _ | ⟨r, rest⟩
      · rw [hfe] at hp
        simp only [Option.some.injEq] at hp
        subst hp
        have hq' : q ∈ (PublishedManager.get_queryset db).filter
            (fun p => decide (p.id = pid)) := hfe ▸ List.mem_cons_self q []
        rw [List.mem_filter] at hq'
        have hpq := (mem_get_queryset db q).mp hq'.1
        exact ⟨hpq.1, hpq.2, of_decide_eq_true hq'.2⟩
      · rw [hfe] at hlen
        simp at hlen

/-- Claim C6: on a database with unique post ids, the lookup shared by the
share and comment flows succeeds exactly when a Published post with the given
id exists, and otherwise both flows fail with the 404 condition — a draft or
nonexistent post can never be shared or commented on. -/
theorem C6_lookup_404 (db : List Post) (pid : Nat) (h : (db.map Post.id).Nodup) :
    ((PublishedManager.get_by_id_or_404 db pid).isSome ↔
      ∃ p ∈ db, p.status = Status.published ∧ p.id = pid) ∧
    (∀ posted, (post_share db pid posted).isSome ↔
      ∃ p ∈ db, p.status = Status.published ∧ p.id = pid) ∧
    (∀ comments d, (post_comment db comments pid d).isSome ↔
      ∃ p ∈ db, p.status = Status.published ∧ p.id = pid) := by
  obtain ⟨hiff, _⟩ := get_by_id_or_404_spec db pid h
  refine ⟨hiff, ?_, ?_⟩
  · intro posted
    rw [← hiff]
    unfold post_share
    cases PublishedManager.get_by_id_or_404 db pid with
    | none => simp
    | some post =>
      cases posted with
      | none => simp
      | some d =>
        by_cases hv : EmailPostForm.is_valid d = true <;> simp [hv]
  · intro comments d
    rw [← hiff]
    unfold post_comment
    cases PublishedManager.get_by_id_or_404 db pid with
    | none => simp
    | some post =>
      by_cases hv : CommentForm.is_valid d = true <;> simp [hv]

/-- Witness for C6: the lookup/share/comment equivalence instantiated on the
example database (unique ids discharged by evaluation) at id 3, post C. -/
theorem C6_lookup_404_witness :
    ((PublishedManager.get_by_id_or_404 exampleDb 3).isSome ↔
      ∃ p ∈ exampleDb, p.status = Status.published ∧ p.id = 3) ∧
    (∀ posted, (post_share exampleDb 3 posted).isSome ↔
      ∃ p ∈ exampleDb, p.status = Status.published ∧ p.id = 3) ∧
    (∀ comments d, (post_comment exampleDb comments 3 d).isSome ↔
      ∃ p ∈ exampleDb, p.status = Status.published ∧ p.id = 3) :=
  C6_lookup_404 exampleDb 3 (by decide)

/-- Claim C7: for a comment POSTed to a published post, a missing required
field (name, email or body submitted empty) persists nothing — the comment
list is unchanged; a valid submission appends exactly one comment, attached to
that post and visible by default, so the post's visible-comment count grows by
exactly one. -/
theorem C7_comment_submission (db : List Post) (comments : List Comment) (pid : Nat)
    (post : Post) (hpost : PublishedManager.get_by_id_or_404 db pid = some post)
    (d : CommentFormData) :
    (d.name = "" ∨ d.email = "" ∨ d.body = "" →
      post_comment db comments pid d = some comments) ∧
    (CommentForm.is_valid d = true →
      ∃ c, post_comment db comments pid d = some (comments ++ [c]) ∧
        c.is_visible = true ∧ c.post_id = post.id ∧
        visibleCommentCount (comments ++ [c]) post.id =
          visibleCommentCount comments post.id + 1) := by
  constructor
  · intro hmiss
    have hv : CommentForm.is_valid d = false := by
      rcases hmiss with hm | hm | hm
      · unfold CommentForm.is_valid
        rw [hm]
        rfl
      · unfold CommentForm.is_valid
        rw [hm]
        have hemail : validEmailAddress "" = false := rfl
        rw [hemail]
        simp
      · unfold CommentForm.is_valid
        rw [hm]
        have hbody : (strip "").isEmpty = true := rfl
        rw [hbody]
        simp
    unfold post_comment
    rw [hpost, hv]
    simp
  · intro hv
    refine ⟨{ post_id := post.id, name := strip d.name, email := strip d.email,
              body := strip d.body, is_visible := true }, ?_, rfl, rfl, ?_⟩
    · unfold post_comment
      rw [hpost, hv]
      simp
    · unfold visibleCommentCount
      rw [List.filter_append, List.length_append]
      simp

/-- Data of a valid comment submission, for the C7 witness. -/
def commentData0 : CommentFormData :=
  { name := "Ann", email := "ann@example.com", body := "Nice post" }

/-- Witness for C7: submitting a valid comment on post A (id 1) of the example
database appends exactly one visible comment and raises the visible-comment
count from 0 to 1; the lookup hypothesis and validity are discharged by
evaluation. -/
theorem C7_comment_submission_witness :
    ∃ c, post_comment exampleDb [] 1 commentData0 = some ([] ++ [c]) ∧
      c.is_visible = true ∧ c.post_id = postA.id ∧
      visibleCommentCount ([] ++ [c]) postA.id =
        visibleCommentCount [] postA.id + 1 :=
  (C7_comment_submission exampleDb [] 1 postA (by decide) commentData0).2 (by decide)

/-! ## Full-text search (`views.post_search`, `forms.SearchForm`) -/

/-- Validation of `SearchForm.is_valid()`: the single `query` CharField is required — the
cleaned (stripped) value must be nonempty. -/
def SearchForm.is_valid (q : String) : Bool := !(strip q).isEmpty

/-- Blank-separated word splitting, the lexing underlying the datastore's
text-search vectors and queries. -/
def splitWords : List Char → List Char → List (List Char)
  | [], acc => [acc.reverse]
  | c :: cs, acc =>
    if c = ' ' then acc.reverse :: splitWords cs [] else splitWords cs (c :: acc)

def textWords (s : String) : List (List Char) :=
  (splitWords s.data []).filter (fun w => !w.isEmpty)

/-- Model of the `SearchVector('title', 'body')` match performed by
`filter(search=query)`: every word of the query occurs among the words of the
post's title or body. -/
def search_matches (p : Post) (q : String) : Bool :=
  let doc := textWords p.title ++ textWords p.body
  let ws := textWords q
  !ws.isEmpty && ws.all (fun w => doc.contains w)

/-- Embeds `views.post_search`: with no `query` GET parameter the result list stays
the initial empty list; otherwise the form validates the parameter, and on
success the published posts matching the search vector are returned.  The
source computes no rank and applies no `order_by`, so the published queryset's
default ordering remains. -/
def post_search (db : List Post) (queryParam : Option String) : List Post :=
  match queryParam with
  | none => []
  | some s =>
    if SearchForm.is_valid s then
      (PublishedManager.get_queryset db).filter (fun p => search_matches p (strip s))
    else []

/-- Claim C8: a search request with the query parameter absent, or present but
failing the non-empty validation, yields the empty result set — never the full
post collection. -/
theorem C8_empty_query_empty_results :
    (∀ db : List Post, post_search db none = []) ∧
    (∀ db : List Post, post_search db (some "") = []) ∧
    (∀ (db : List Post) (s : String), SearchForm.is_valid s = false →
      post_search db (some s) = []) := by
  refine ⟨fun db => rfl, fun db => rfl, fun db s hs => ?_⟩
  simp [post_search, hs]

/-- Witness for C8: a whitespace-only query fails validation and returns no
results over the example database. -/
theorem C8_empty_query_empty_results_witness :
    post_search exampleDb (some "   ") = [] :=
  C8_empty_query_empty_results.2.2 exampleDb "   " (by decide)

/-- Modelled from the spec: the relevance rank score of the search contract
("compute a relevance rank score ... order by descending rank").  The source
never constructs a rank (`views.post_search` builds no `SearchRank` and calls
no `order_by`), so this definition follows the spec's words with the simplest
datastore-style relevance score: the number of occurrences of query words in
the post's title+body document. -/
def spec_search_rank (p : Post) (q : String) : Nat :=
  ((textWords p.title ++ textWords p.body).filter
    (fun w => (textWords q).contains w)).length

/-- Modelled from the spec: a result list ordered by descending relevance
rank. -/
def sortedByRankDesc (q : String) (l : List Post) : Prop :=
  List.Pairwise (fun a b => spec_search_rank b q ≤ spec_search_rank a q) l

/-- A published post matching "alpha" once, more recent than `searchP2`. -/
def searchP1 : Post :=
  { id := 21, title := "alpha", slug := "p1", body := "beta gamma",
    publication_date := ⟨2024, 9, 1, 0⟩, status := Status.published, tags := [] }

/-- A published post matching "alpha" three times, older than `searchP1`. -/
def searchP2 : Post :=
  { id := 22, title := "alpha", slug := "p2", body := "alpha alpha",
    publication_date := ⟨2024, 8, 1, 0⟩, status := Status.published, tags := [] }

def searchDb : List Post := [searchP2, searchP1]

/-- Counterexample to claim C4: searching "alpha" over two matching published
posts returns them in publication-date order `[searchP1, searchP2]`, although
`searchP2` has the strictly higher relevance score (3 occurrences against 1) —
the view computes no rank and never orders by one, so the result set is not
ordered by descending rank score. -/
theorem C4_counterexample :
    post_search searchDb (some "alpha") = [searchP1, searchP2] ∧
    spec_search_rank searchP1 "alpha" = 1 ∧
    spec_search_rank searchP2 "alpha" = 3 ∧
    ¬ sortedByRankDesc "alpha" (post_search searchDb (some "alpha")) := by
  refine ⟨by decide, by decide, by decide, ?_⟩
  unfold sortedByRankDesc
  decide

/-- Claim C4 (amended): for every query accepted by the search view's
validation, the result set consists exactly of the Published posts whose
title+body search vector matches the cleaned query, returned in the model's
default descending-publication-date order; no relevance rank is computed and
the results are not ordered by rank. -/
theorem C4_search_results (db : List Post) (s : String)
    (h : SearchForm.is_valid s = true) :
    (∀ p, p ∈ post_search db (some s) ↔
      p ∈ db ∧ p.status = Status.published ∧ search_matches p (strip s) = true) ∧
    List.Sorted pubDateDescLe (post_search db (some s)) := by
  constructor
  · intro p
    simp only [post_search, h, if_true]
    rw [List.mem_filter, mem_get_queryset]
    tauto
  · simp only [post_search, h, if_true]
    exact List.Pairwise.sublist (List.filter_sublist _) (get_queryset_sorted db)

/-- Witness for C4 (amended): instantiated over the search example database
with the query "alpha"; validation discharged by evaluation. -/
theorem C4_search_results_witness :
    (∀ p, p ∈ post_search searchDb (some "alpha") ↔
      p ∈ searchDb ∧ p.status = Status.published ∧
        search_matches p (strip "alpha") = true) ∧
    List.Sorted pubDateDescLe (post_search searchDb (some "alpha")) :=
  C4_search_results searchDb "alpha" (by decide)

/-! ## URL routing (`blog/urls.py`, `mysite/urls.py`) and `Post.get_absolute_url` -/

/-- One segment of a `django.urls.path` route: a literal, an `<int:...>`
converter or a `<slug:...>` converter. -/
inductive PathSeg
  | lit (s : String)
  | intParam (pname : String)
  | slugParam (pname : String)
deriving DecidableEq, Repr

/-- A `path(...)` entry: the route's segments, the view it maps to and its
reversing name. -/
structure UrlPattern where
  segs : List PathSeg
  view : String
  pname : String
deriving DecidableEq, Repr

/-- The `urlpatterns` list of `blog/urls.py`: exactly two entries — the empty route to
`PostListView` and the dated detail route to `post_detail`. -/
def blog_urlpatterns : List UrlPattern :=
  [ { segs := [], view := "PostListView", pname := "post_list" },
    { segs := [PathSeg.intParam "year", PathSeg.intParam "month",
               PathSeg.intParam "day", PathSeg.slugParam "post"],
      view := "post_detail", pname := "post_detail" } ]

/-- Whether one path segment satisfies one route segment (`<int:...>` wants
digits, `<slug:...>` wants a nonempty slug of word characters and hyphens). -/
def matchSeg : PathSeg → String → Bool
  | PathSeg.lit s, seg => seg == s
  | PathSeg.intParam _, seg => !seg.isEmpty && seg.data.all Char.isDigit
  | PathSeg.slugParam _, seg =>
    !seg.isEmpty && seg.data.all (fun c => c.isAlphanum || c == '-' || c == '_')

def matchRoute (segs : List PathSeg) (path : List String) : Bool :=
  segs.length == path.length && (List.zip segs path).all (fun x => matchSeg x.1 x.2)

/-- URL resolution under the `/blog/` include: the view name the router maps a
path (split into its slash-separated segments) to, if any. -/
def resolve (pats : List UrlPattern) (path : List String) : Option String :=
  (pats.find? (fun u => matchRoute u.segs path)).map UrlPattern.view

/-- Counterexample to claim C5: the router of `blog/urls.py` has no entry for
the share, comment or search views — its only views are `PostListView` and
`post_detail`, and the paths `<post_id>/share/`, `<post_id>/comment/` and
`search/` resolve to nothing. -/
theorem C5_counterexample :
    blog_urlpatterns.map UrlPattern.view = ["PostListView", "post_detail"] ∧
    resolve blog_urlpatterns ["7", "share"] = none ∧
    resolve blog_urlpatterns ["7", "comment"] = none ∧
    resolve blog_urlpatterns ["search"] = none := by
  refine ⟨rfl, by decide, by decide, by decide⟩

/-- Claim C5 (amended): the router exposes exactly two entries — the post list
at `/blog/` (served by `PostListView`) and the post detail at
`/blog/<year>/<month>/<day>/<slug>/`; the share, comment and search view
functions exist in `views.py` but have no routing entry. -/
theorem C5_routing :
    resolve blog_urlpatterns [] = some "PostListView" ∧
    resolve blog_urlpatterns ["2024", "1", "5", "my-post"] = some "post_detail" ∧
    blog_urlpatterns.length = 2 ∧
    (blog_urlpatterns.map UrlPattern.view).all
      (fun v => v != "post_share" && v != "post_comment" && v != "post_search") = true := by
  refine ⟨by decide, by decide, rfl, by decide⟩

/-- The argument list of a `django.urls.reverse` call. -/
inductive UrlArg
  | intArg (n : Nat)
  | slugArg (s : String)
deriving DecidableEq, Repr

/-- Substitute reverse-call arguments into a route, producing the path tail
(each segment followed by a slash, matching `path`'s trailing-slash routes). -/
def renderSegs : List PathSeg → List UrlArg → Option String
  | [], [] => some ""
  | PathSeg.lit s :: rest, args =>
    (renderSegs rest args).map (fun r => s ++ "/" ++ r)
  | PathSeg.intParam _ :: rest, UrlArg.intArg n :: args =>
    (renderSegs rest args).map (fun r => Nat.repr n ++ "/" ++ r)
  | PathSeg.slugParam _ :: rest, UrlArg.slugArg s :: args =>
    (renderSegs rest args).map (fun r => s ++ "/" ++ r)
  | _, _ => none

/-- Model of `django.urls.reverse` for names in the blog namespace: find the named
route and substitute the arguments, under the leading `/blog/` segment that
`mysite/urls.py` mounts the blog app at. -/
def reverse (rname : String) (args : List UrlArg) : Option String :=
  (blog_urlpatterns.find? (fun u => u.pname == rname)).bind fun u =>
    (renderSegs u.segs args).map (fun tail => "/blog/" ++ tail)

/-- Embeds `Post.get_absolute_url` (`blog/models.py`): `reverse('blog:post_detail',
args=[publication_date.year, publication_date.month, publication_date.day,
slug])`. -/
def Post.get_absolute_url (p : Post) : Option String :=
  reverse "post_detail"
    [UrlArg.intArg p.publication_date.year, UrlArg.intArg p.publication_date.month,
     UrlArg.intArg p.publication_date.day, UrlArg.slugArg p.slug]

/-- Claim C9: for every post whose publication date has components (Y, M, D)
and whose slug is S, `get_absolute_url` returns exactly the detail path
`/blog/Y/M/D/S/` produced by the `post_detail` URL pattern. -/
theorem C9_get_absolute_url (p : Post) :
    Post.get_absolute_url p =
      some ("/blog/" ++ Nat.repr p.publication_date.year ++ "/" ++
        Nat.repr p.publication_date.month ++ "/" ++ Nat.repr p.publication_date.day ++
        "/" ++ p.slug ++ "/") := by
  have h : Post.get_absolute_url p =
      some ("/blog/" ++ ((Nat.repr p.publication_date.year ++ "/") ++
        ((Nat.repr p.publication_date.month ++ "/") ++
          ((Nat.repr p.publication_date.day ++ "/") ++ ((p.slug ++ "/") ++ ""))))) := rfl
  rw [h]
  simp [String.append_assoc]

end Blog
